import Mathlib

/-!
Shallow embedding of `src/lib/index.ts` (class `QuickWs`), a reconnecting
WebSocket client.  The class is a single-threaded event-driven state machine:
all mutation happens in the public methods `connect` / `close` and in the four
event listeners (`open`, `error`, `close`, `message`) registered on each
`WebSocket` the class creates, plus the `setTimeout` retry callback.

The embedding below models:
  * the private fields of the class as a Lean structure `WsState`;
  * each created `WebSocket` as an entry in a ghost list `socks` (indexed by
    creation order), recording the uri the listeners captured and whether the
    browser has already delivered its `open` / `close` event and whether
    `socket.close()` was called on it — the class itself never removes its
    listeners, so events on superseded sockets still run the listener bodies;
  * `setTimeout` / `clearTimeout` faithfully: every scheduled timeout lives in
    `pendingTimers` until it fires or is cleared, and the field `retryTimer`
    holds the id the class tracks; overwriting `retryTimer` with a new
    `setTimeout` result does not clear the previous timeout;
  * `Math.random()` as a rational parameter `r ∈ [0, 1)` carried by the
    `close`-event action (the only consumer of randomness);
  * observable callback invocations as a list of `Out` values.
-/

namespace QuickWs

/-- Ghost record for one `WebSocket` created by `new WebSocket(wsUri)`:
the uri captured by the listener closures, whether the `open` event has been
delivered, whether the `close` event has been delivered, and whether the
client called `.close()` on it. -/
structure Sock where
  uri : String
  opened : Bool
  closeDelivered : Bool
  userClosed : Bool
deriving DecidableEq, Repr

/-- Default value used by total lookups into the socket list. -/
def dSock : Sock := ⟨"", false, false, false⟩

/-- State of a `QuickWs` instance: the private fields of the class, plus the
ghost bookkeeping for created sockets and scheduled timeouts.
`socket` is `_socket` (the id of the currently referenced socket),
`retryTimer` is `_retryTimer`, and `pendingTimers` are the host timeouts that
are scheduled and have not fired nor been cleared (each holding the uri its
callback closure captured). -/
structure WsState where
  socket : Option Nat
  socks : List Sock
  pendingTimers : List (Nat × String)
  retryTimer : Option Nat
  nextTimerId : Nat
  retryTimeoutBase : ℚ
  retryTimeoutMax : ℚ
  retryTimeoutIncrement : ℚ
  retryTimeoutJitter : ℚ
  currentRetry : ℤ
  maxRetries : ℤ
  hasEstablishedCb : Bool
  hasBrokenCb : Bool
  hasMessageCb : Bool
deriving DecidableEq, Repr

/-- Observable effects: transport opens, application callback invocations and
invocations of the optional diagnostic log sinks (`logDebug` / `logError`
record that `_logDebug` / `_logError` was reached; the sink runs when
registered). `timerSet` records a `setTimeout` with its computed delay in
seconds. -/
inductive Out where
  | attemptOpen (sid : Nat) (uri : String)
  | established (sid : Option Nat)
  | broken
  | message (sid : Option Nat) (payload : String)
  | logDebug
  | logError
  | timerSet (tid : Nat) (delaySecs : ℚ)
deriving DecidableEq, Repr

/-- Embedding of `_getRandomInt(min, max)`:
`min = Math.ceil(min); max = Math.floor(max); return Math.floor(Math.random() * (max - min) + min)`
with `Math.random()` supplied as the parameter `r`. -/
def getRandomInt (lo hi r : ℚ) : ℤ :=
  Int.floor (r * ((Int.floor hi : ℚ) - (Int.ceil lo : ℚ)) + (Int.ceil lo : ℚ))

/-- Embedding of `_resetRetries()`: restores the four backoff parameters to
their defaults, zeroes `_currentRetry`, and, when `_retryTimer` is non-null,
runs `clearTimeout(this._retryTimer)` (removing exactly that timeout from the
host's pending set) and nulls the field. -/
def resetRetries (s : WsState) : WsState :=
  { s with
    retryTimeoutBase := 2
    retryTimeoutMax := 30
    retryTimeoutIncrement := 2
    retryTimeoutJitter := 2
    currentRetry := 0
    pendingTimers :=
      match s.retryTimer with
      | none => s.pendingTimers
      | some tid => s.pendingTimers.filter (fun p => p.1 != tid)
    retryTimer := none }

/-- Embedding of `_reopenSocket(wsUri)` up to listener registration:
increments `_currentRetry`, logs, creates a fresh `WebSocket` (a new ghost
socket whose listeners capture `wsUri`) and stores it in `_socket`. -/
def reopenSocket (uri : String) (s : WsState) : WsState × List Out :=
  let s1 := { s with currentRetry := s.currentRetry + 1 }
  let sid := s1.socks.length
  ({ s1 with
      socks := s1.socks ++ [⟨uri, false, false, false⟩]
      socket := some sid },
   [Out.logDebug, Out.attemptOpen sid uri])

/-- Delay computed by `_retryConnectionLogic` when it schedules a retry:
`Math.min(base + increment * currentRetry + getRandomInt(-jitter, jitter), max)`. -/
def computeWait (s : WsState) (r : ℚ) : ℚ :=
  min (s.retryTimeoutBase + s.retryTimeoutIncrement * (s.currentRetry : ℚ)
        + (getRandomInt (-s.retryTimeoutJitter) s.retryTimeoutJitter r : ℚ))
      s.retryTimeoutMax

/-- Embedding of `_retryConnectionLogic(callback)` where `callback` is
`() => this._reopenSocket(wsUri)` for the `wsUri` captured by the closing
socket's listener.  If `_currentRetry >= _maxRetries` it logs an error,
invokes the broken callback when registered, and returns; otherwise it
computes the delay and schedules the callback with `setTimeout`, storing the
new timeout id in `_retryTimer` (without clearing a previously stored one). -/
def retryConnectionLogic (uri : String) (r : ℚ) (s : WsState) : WsState × List Out :=
  if s.currentRetry ≥ s.maxRetries then
    (s, [Out.logError] ++ (if s.hasBrokenCb then [Out.broken] else []))
  else
    let w := computeWait s r
    let tid := s.nextTimerId
    ({ s with
        pendingTimers := s.pendingTimers ++ [(tid, uri)]
        retryTimer := some tid
        nextTimerId := tid + 1 },
     [Out.logDebug, Out.timerSet tid w])

/-- Mark the ghost socket `sid` as having had its `open` event delivered. -/
def setOpened (socks : List Sock) (sid : Nat) : List Sock :=
  socks.set sid { socks.getD sid dSock with opened := true }

/-- Mark the ghost socket `sid` as having had its `close` event delivered. -/
def setCloseDelivered (socks : List Sock) (sid : Nat) : List Sock :=
  socks.set sid { socks.getD sid dSock with closeDelivered := true }

/-- Mark the ghost socket `sid` as closed by the client (`socket.close()`). -/
def setUserClosed (socks : List Sock) (sid : Nat) : List Sock :=
  socks.set sid { socks.getD sid dSock with userClosed := true }

/-- Body of the `open` listener registered in `_reopenSocket`: resets the
retry state and invokes the established callback, when registered, with
`this._socket!` (the currently referenced socket, not necessarily the event's
source — the class never unregisters listeners). -/
def handleOpen (sid : Nat) (s : WsState) : WsState × List Out :=
  let s1 := resetRetries { s with socks := setOpened s.socks sid }
  (s1, if s1.hasEstablishedCb then [Out.established s1.socket] else [])

/-- Body of the `error` listener registered in `_reopenSocket`: only logs via
the diagnostic error sink. -/
def handleError (s : WsState) : WsState × List Out :=
  (s, [Out.logError])

/-- Body of the `close` listener registered in `_reopenSocket`: logs, then
runs `_retryConnectionLogic(() => this._reopenSocket(wsUri))` where `wsUri`
is the uri captured when the event's source socket was created. -/
def handleClose (sid : Nat) (r : ℚ) (s : WsState) : WsState × List Out :=
  let u := (s.socks.getD sid dSock).uri
  let pr := retryConnectionLogic u r { s with socks := setCloseDelivered s.socks sid }
  (pr.1, Out.logDebug :: pr.2)

/-- Body of the `message` listener registered in `_reopenSocket`: when a
message callback is registered, invokes it with `this._socket!` (the current
socket reference) and the raw `event.data`; otherwise does nothing. -/
def handleMessage (payload : String) (s : WsState) : WsState × List Out :=
  (s, if s.hasMessageCb then [Out.message s.socket payload] else [])

/-- Embedding of the public `connect(wsUri)`: `_resetRetries()` then
`_reopenSocket(wsUri)`. -/
def connect (uri : String) (s : WsState) : WsState × List Out :=
  reopenSocket uri (resetRetries s)

/-- Embedding of the public `close(code, reason)` (the code and reason do not
affect the class state): when `_socket` is non-null it resets the retry state,
calls `.close()` on the referenced socket and nulls `_socket`; otherwise it
does nothing. -/
def close (s : WsState) : WsState × List Out :=
  match s.socket with
  | none => (s, [])
  | some sid =>
    let s1 := resetRetries s
    ({ s1 with socks := setUserClosed s1.socks sid, socket := none }, [])

/-- Firing of a scheduled timeout `tid`: the host removes it from the pending
set and runs its callback `() => { this._retryTimer = null; callback(); }`,
which nulls `_retryTimer` unconditionally and reopens the captured uri. -/
def handleTimerFire (tid : Nat) (s : WsState) : WsState × List Out :=
  let u := ((s.pendingTimers.lookup tid).getD "")
  reopenSocket u
    { s with
        pendingTimers := s.pendingTimers.filter (fun p => p.1 != tid)
        retryTimer := none }

/-- Actions driving the state machine: the two public methods and the
asynchronous events the host can deliver (`r` is the `Math.random()` draw
consumed when a `close` event runs the retry logic). -/
inductive Act where
  | connect (uri : String)
  | close
  | openEvt (sid : Nat)
  | closeEvt (sid : Nat) (r : ℚ)
  | msgEvt (sid : Nat) (payload : String)
  | errEvt (sid : Nat)
  | timerFire (tid : Nat)
deriving DecidableEq, Repr

/-- One dispatch step: runs the method or listener body for the action. -/
def step (s : WsState) : Act → WsState × List Out
  | .connect uri => connect uri s
  | .close => close s
  | .openEvt sid => handleOpen sid s
  | .closeEvt sid r => handleClose sid r s
  | .msgEvt _ payload => handleMessage payload s
  | .errEvt _ => handleError s
  | .timerFire tid => handleTimerFire tid s

/-- Environment validity of an action in a state: sockets exist and deliver
`open` at most once (and not after client closure) and `close` at most once
(a socket the client closed still delivers its `close` event); messages and
errors arrive only on sockets whose `close` event has not been delivered,
messages only after `open`; a timeout fires only while pending; the random
draw lies in `[0, 1)`. -/
def validAct (s : WsState) : Act → Prop
  | .connect _ => True
  | .close => True
  | .openEvt sid =>
    ∃ k, s.socks.get? sid = some k ∧
      k.opened = false ∧ k.closeDelivered = false ∧ k.userClosed = false
  | .closeEvt sid r =>
    (∃ k, s.socks.get? sid = some k ∧ k.closeDelivered = false) ∧ 0 ≤ r ∧ r < 1
  | .msgEvt sid _ =>
    ∃ k, s.socks.get? sid = some k ∧ k.opened = true ∧ k.closeDelivered = false
  | .errEvt sid =>
    ∃ k, s.socks.get? sid = some k ∧ k.closeDelivered = false
  | .timerFire tid => ∃ u, (tid, u) ∈ s.pendingTimers

/-- Run a list of actions, accumulating the observable outputs. -/
def runFrom (s : WsState) : List Act → WsState × List Out
  | [] => (s, [])
  | a :: as =>
    let p := step s a
    let q := runFrom p.1 as
    (q.1, p.2 ++ q.2)

/-- Every action of the list is valid in the state it is dispatched in. -/
def validTrace (s : WsState) : List Act → Prop
  | [] => True
  | a :: as => validAct s a ∧ validTrace (step s a).1 as

/-- State of a freshly constructed instance `new QuickWs(maxRetries)` with
the three application callbacks registered as given (registration only sets
the corresponding private field). -/
def initState (maxRetries : ℤ) (e b m : Bool) : WsState :=
  { socket := none
    socks := []
    pendingTimers := []
    retryTimer := none
    nextTimerId := 0
    retryTimeoutBase := 2
    retryTimeoutMax := 30
    retryTimeoutIncrement := 2
    retryTimeoutJitter := 2
    currentRetry := 0
    maxRetries := maxRetries
    hasEstablishedCb := e
    hasBrokenCb := b
    hasMessageCb := m }

/-- Sockets that exist and are not discarded: neither closed by the client
nor terminated by a delivered `close` event. -/
def liveSocks (s : WsState) : List Sock :=
  s.socks.filter (fun k => !k.closeDelivered && !k.userClosed)

/-- Number of `broken`-callback invocations in an output list. -/
def countBroken (l : List Out) : Nat :=
  (l.filter (fun o => match o with | Out.broken => true | _ => false)).length

/-- Delays of the `setTimeout` calls in an output list, in order. -/
def timerDelays (l : List Out) : List ℚ :=
  l.filterMap (fun o => match o with | .timerSet _ w => some w | _ => none)

end QuickWs

namespace QuickWs

/-- Numeric evaluation of `⌈(-2 : ℚ)⌉`. -/
lemma ceil_neg_two : ⌈(-2 : ℚ)⌉ = -2 := by
  rw [show ((-2 : ℚ)) = ((-2 : ℤ) : ℚ) by norm_num, Int.ceil_intCast]

/-- Numeric evaluation of `⌊(2 : ℚ)⌋`. -/
lemma floor_two : ⌊(2 : ℚ)⌋ = 2 := by
  rw [show ((2 : ℚ)) = ((2 : ℤ) : ℚ) by norm_num, Int.floor_intCast]

/-- With the default jitter parameter the random draw is `⌊4r⌋ - 2`. -/
lemma getRandomInt_jitter (r : ℚ) : getRandomInt (-2) 2 r = ⌊4 * r⌋ - 2 := by
  rw [getRandomInt, ceil_neg_two, floor_two]
  rw [show ((2:ℤ):ℚ) - ((-2:ℤ):ℚ) = 4 by norm_num,
    show ((-2:ℤ):ℚ) = ((-2:ℤ):ℚ) from rfl, mul_comm]
  rw [show (4:ℚ) * r + ((-2:ℤ):ℚ) = ((-2:ℤ):ℚ) + 4 * r by ring, Int.floor_int_add]
  omega

/-- Bounds of the default-jitter random draw: an integer in `[-2, 2)`. -/
lemma getRandomInt_jitter_bounds (r : ℚ) (hr0 : 0 ≤ r) (hr1 : r < 1) :
    -2 ≤ getRandomInt (-2) 2 r ∧ getRandomInt (-2) 2 r < 2 := by
  rw [getRandomInt_jitter]
  have h1 : (0 : ℤ) ≤ ⌊4 * r⌋ := by
    rw [Int.le_floor]; positivity
  have h2 : ⌊4 * r⌋ < 4 := by
    rw [Int.floor_lt]; push_cast; linarith
  omega

/-- On a state with the default backoff parameters the computed wait equals
the integer `min (2 + 2·currentRetry + (⌊4r⌋ - 2)) 30` cast to the rationals. -/
lemma computeWait_default (s : WsState) (r : ℚ)
    (hb : s.retryTimeoutBase = 2) (hm : s.retryTimeoutMax = 30)
    (hi : s.retryTimeoutIncrement = 2) (hj : s.retryTimeoutJitter = 2) :
    computeWait s r
      = ((min (2 + 2 * s.currentRetry + (⌊4 * r⌋ - 2)) 30 : ℤ) : ℚ) := by
  rw [computeWait, hb, hm, hi, hj, getRandomInt_jitter]
  rw [Int.cast_min]
  push_cast
  ring_nf

/-- Appending traces composes the final state and concatenates outputs. -/
lemma runFrom_append (s : WsState) (l1 l2 : List Act) :
    runFrom s (l1 ++ l2)
      = ((runFrom (runFrom s l1).1 l2).1,
         (runFrom s l1).2 ++ (runFrom (runFrom s l1).1 l2).2) := by
  induction l1 generalizing s with
  | nil => simp [runFrom]
  | cons a as ih => simp [runFrom, ih, List.append_assoc]

/-- Validity of an appended trace splits at the junction state. -/
lemma validTrace_append (s : WsState) (l1 l2 : List Act) :
    validTrace s (l1 ++ l2) ↔ validTrace s l1 ∧ validTrace (runFrom s l1).1 l2 := by
  induction l1 generalizing s with
  | nil => simp [validTrace, runFrom]
  | cons a as ih => simp [validTrace, runFrom, ih, and_assoc]

/-- Total lookup at the length of the prefix hits the appended element. -/
lemma getD_concat_length (l : List Sock) (x d : Sock) : (l ++ [x]).getD l.length d = x := by
  simp [List.getD, List.getElem?_concat_length]

/-- Updating at the length of the prefix replaces the appended element. -/
lemma set_concat_length (l : List Sock) (x v : Sock) : (l ++ [x]).set l.length v = l ++ [v] := by
  induction l with
  | nil => rfl
  | cons a as ih => simp [ih]

/-- Broken-callback count is additive under output concatenation. -/
lemma countBroken_append (a b : List Out) :
    countBroken (a ++ b) = countBroken a + countBroken b := by
  simp [countBroken, List.filter_append]

/-- Scheduled delays are additive under output concatenation. -/
lemma timerDelays_append (a b : List Out) :
    timerDelays (a ++ b) = timerDelays a ++ timerDelays b := by
  simp [timerDelays]

/-- C4: at every retry count at which a delay is computed (the code path with
`currentRetry < maxRetries`, parameters `baseDelay=2, increment=2, jitter=2,
maxDelay=30`), the scheduled delay equals
`min (baseDelay + increment·k + uniformRandomInt(-jitter, jitter)) maxDelay`,
the random draw is an integer in `[-2, 2)` (inclusive lower bound after
ceiling, exclusive upper bound after floor), the pre-clamp delay lies in
`[2 + 2k - 2, 2 + 2k + 2)`, and the clamped delay never exceeds 30. -/
theorem claim_C4 (s : WsState) (r : ℚ) (u : String)
    (hb : s.retryTimeoutBase = 2) (hm : s.retryTimeoutMax = 30)
    (hi : s.retryTimeoutIncrement = 2) (hj : s.retryTimeoutJitter = 2)
    (hr0 : 0 ≤ r) (hr1 : r < 1) (hlt : s.currentRetry < s.maxRetries) :
    (retryConnectionLogic u r s).2
      = [Out.logDebug, Out.timerSet s.nextTimerId (computeWait s r)] ∧
    computeWait s r
      = min (s.retryTimeoutBase + s.retryTimeoutIncrement * (s.currentRetry : ℚ)
          + (getRandomInt (-s.retryTimeoutJitter) s.retryTimeoutJitter r : ℚ))
          s.retryTimeoutMax ∧
    (-2 ≤ getRandomInt (-2) 2 r ∧ getRandomInt (-2) 2 r < 2) ∧
    2 + 2 * (s.currentRetry : ℚ) - 2
      ≤ 2 + 2 * (s.currentRetry : ℚ) + (getRandomInt (-2) 2 r : ℚ) ∧
    2 + 2 * (s.currentRetry : ℚ) + (getRandomInt (-2) 2 r : ℚ)
      < 2 + 2 * (s.currentRetry : ℚ) + 2 ∧
    computeWait s r ≤ 30 := by
  obtain ⟨hlo, hhi⟩ := getRandomInt_jitter_bounds r hr0 hr1
  have hloQ : (-2 : ℚ) ≤ (getRandomInt (-2) 2 r : ℚ) := by exact_mod_cast hlo
  have hhiQ : (getRandomInt (-2) 2 r : ℚ) < 2 := by exact_mod_cast hhi
  refine ⟨?_, rfl, ⟨hlo, hhi⟩, by linarith, by linarith, ?_⟩
  · simp [retryConnectionLogic, if_neg (not_le.mpr hlt)]
  · rw [computeWait, hm]
    exact min_le_right _ _

/-- Witness for C4 at `r = 0`, `currentRetry = 0`, `maxRetries = 5`. -/
theorem claim_C4_witness :
    ((initState 5 false false false).retryTimeoutBase = 2 ∧
      (0 : ℚ) ≤ 0 ∧ (0 : ℚ) < 1 ∧
      (initState 5 false false false).currentRetry
        < (initState 5 false false false).maxRetries) ∧
    ((retryConnectionLogic "u" 0 (initState 5 false false false)).2
      = [Out.logDebug,
         Out.timerSet (initState 5 false false false).nextTimerId
           (computeWait (initState 5 false false false) 0)] ∧
    computeWait (initState 5 false false false) 0
      = min ((initState 5 false false false).retryTimeoutBase
          + (initState 5 false false false).retryTimeoutIncrement
            * ((initState 5 false false false).currentRetry : ℚ)
          + (getRandomInt (-(initState 5 false false false).retryTimeoutJitter)
              (initState 5 false false false).retryTimeoutJitter 0 : ℚ))
          (initState 5 false false false).retryTimeoutMax ∧
    (-2 ≤ getRandomInt (-2) 2 0 ∧ getRandomInt (-2) 2 0 < 2) ∧
    2 + 2 * ((initState 5 false false false).currentRetry : ℚ) - 2
      ≤ 2 + 2 * ((initState 5 false false false).currentRetry : ℚ)
        + (getRandomInt (-2) 2 0 : ℚ) ∧
    2 + 2 * ((initState 5 false false false).currentRetry : ℚ)
        + (getRandomInt (-2) 2 0 : ℚ)
      < 2 + 2 * ((initState 5 false false false).currentRetry : ℚ) + 2 ∧
    computeWait (initState 5 false false false) 0 ≤ 30) :=
  ⟨⟨rfl, le_refl 0, by norm_num, by decide⟩,
    claim_C4 (initState 5 false false false) 0 "u" rfl rfl rfl rfl
      (le_refl 0) (by norm_num) (by decide)⟩

/-- C10: with the default backoff constants and any retry count `k ≥ 0`, the
jitter draw lies in `[-2, 2)`, the pre-clamp delay lies in `[2k, 2k + 4)`,
and the computed delay is a non-negative integer number of seconds even
though the code applies no explicit lower clamp at zero. -/
theorem claim_C10 (s : WsState) (r : ℚ)
    (hb : s.retryTimeoutBase = 2) (hm : s.retryTimeoutMax = 30)
    (hi : s.retryTimeoutIncrement = 2) (hj : s.retryTimeoutJitter = 2)
    (hk : 0 ≤ s.currentRetry) (hr0 : 0 ≤ r) (hr1 : r < 1) :
    (-2 ≤ getRandomInt (-2) 2 r ∧ getRandomInt (-2) 2 r < 2) ∧
    2 * (s.currentRetry : ℚ)
      ≤ s.retryTimeoutBase + s.retryTimeoutIncrement * (s.currentRetry : ℚ)
        + (getRandomInt (-s.retryTimeoutJitter) s.retryTimeoutJitter r : ℚ) ∧
    s.retryTimeoutBase + s.retryTimeoutIncrement * (s.currentRetry : ℚ)
        + (getRandomInt (-s.retryTimeoutJitter) s.retryTimeoutJitter r : ℚ)
      < 2 * (s.currentRetry : ℚ) + 4 ∧
    computeWait s r = ((min (2 + 2 * s.currentRetry + (⌊4 * r⌋ - 2)) 30 : ℤ) : ℚ) ∧
    0 ≤ computeWait s r := by
  obtain ⟨hlo, hhi⟩ := getRandomInt_jitter_bounds r hr0 hr1
  have hloQ : (-2 : ℚ) ≤ (getRandomInt (-2) 2 r : ℚ) := by exact_mod_cast hlo
  have hhiQ : (getRandomInt (-2) 2 r : ℚ) < 2 := by exact_mod_cast hhi
  have hfl : (0 : ℤ) ≤ ⌊4 * r⌋ := by
    rw [Int.le_floor]; positivity
  refine ⟨⟨hlo, hhi⟩, ?_, ?_, computeWait_default s r hb hm hi hj, ?_⟩
  · rw [hb, hi, hj]; linarith
  · rw [hb, hi, hj]; linarith
  · rw [computeWait_default s r hb hm hi hj]
    have : (0 : ℤ) ≤ min (2 + 2 * s.currentRetry + (⌊4 * r⌋ - 2)) 30 := by omega
    exact_mod_cast this

/-- Witness for C10 at `r = 0`, `currentRetry = 0`. -/
theorem claim_C10_witness :
    ((0 : ℤ) ≤ (initState 5 false false false).currentRetry ∧
      (0 : ℚ) ≤ 0 ∧ (0 : ℚ) < 1) ∧
    ((-2 ≤ getRandomInt (-2) 2 0 ∧ getRandomInt (-2) 2 0 < 2) ∧
    2 * ((initState 5 false false false).currentRetry : ℚ)
      ≤ (initState 5 false false false).retryTimeoutBase
        + (initState 5 false false false).retryTimeoutIncrement
          * ((initState 5 false false false).currentRetry : ℚ)
        + (getRandomInt (-(initState 5 false false false).retryTimeoutJitter)
            (initState 5 false false false).retryTimeoutJitter 0 : ℚ) ∧
    (initState 5 false false false).retryTimeoutBase
        + (initState 5 false false false).retryTimeoutIncrement
          * ((initState 5 false false false).currentRetry : ℚ)
        + (getRandomInt (-(initState 5 false false false).retryTimeoutJitter)
            (initState 5 false false false).retryTimeoutJitter 0 : ℚ)
      < 2 * ((initState 5 false false false).currentRetry : ℚ) + 4 ∧
    computeWait (initState 5 false false false) 0
      = ((min (2 + 2 * (initState 5 false false false).currentRetry + (⌊4 * (0:ℚ)⌋ - 2)) 30 : ℤ) : ℚ) ∧
    0 ≤ computeWait (initState 5 false false false) 0) :=
  ⟨⟨le_refl 0, le_refl 0, by norm_num⟩,
    claim_C10 (initState 5 false false false) 0 rfl rfl rfl rfl
      (le_refl 0) (le_refl 0) (by norm_num)⟩

/-- C7: when a `message` event carrying a payload is delivered on the current
socket, the registered message callback is invoked exactly once with the live
transport handle and the exact untransformed payload; when no callback is
registered nothing happens — the state is unchanged either way, with no
buffering or filtering. -/
theorem claim_C7 (s : WsState) (sid : Nat) (p : String) (h : s.socket = some sid) :
    step s (Act.msgEvt sid p)
      = (s, if s.hasMessageCb then [Out.message (some sid) p] else []) := by
  simp [step, handleMessage, h]

/-- Witness for C7: after `connect`, the current socket is `0` and a
`"ping"` message invokes the callback once with handle `0` and `"ping"`. -/
theorem claim_C7_witness :
    ((runFrom (initState 5 false false true) [Act.connect "u"]).1.socket = some 0) ∧
    step (runFrom (initState 5 false false true) [Act.connect "u"]).1 (Act.msgEvt 0 "ping")
      = ((runFrom (initState 5 false false true) [Act.connect "u"]).1,
         if (runFrom (initState 5 false false true) [Act.connect "u"]).1.hasMessageCb
         then [Out.message (some 0) "ping"] else []) :=
  ⟨by simp [runFrom, step, connect, resetRetries, reopenSocket, initState],
   claim_C7 _ 0 "ping"
     (by simp [runFrom, step, connect, resetRetries, reopenSocket, initState])⟩

/-- C8: an `error` event only invokes the diagnostic error sink — the state
(socket, retry counter, timers, callbacks) is unchanged, no application
callback fires, and no retry decision is triggered. -/
theorem claim_C8 (s : WsState) (sid : Nat) :
    step s (Act.errEvt sid) = (s, [Out.logError]) := rfl

/-- Evaluation of the random draw at `r = 0`. -/
lemma getRandomInt_zero : getRandomInt (-2) 2 0 = -2 := by
  rw [getRandomInt_jitter]; norm_num

/-- Construction `new QuickWs(5)` without registered callbacks, the default
instance used by the concrete executions below. -/
def init5 : WsState := initState 5 false false false

/-- C1 fails on the code: run `connect("u")` then `close()`.  `close()`
cancels the (absent) timer, nulls the socket and leaves no pending timer;
but the `close` event that `socket.close()` provokes still runs the
still-registered listener, which schedules a retry with the reset counter,
and when that timer fires a new transport open to `"u"` occurs — a
reconnection attempt after `close()`. -/
theorem claim_C1_bug :
    validTrace init5 [Act.connect "u", Act.close] ∧
    (runFrom init5 [Act.connect "u", Act.close]).1.pendingTimers = [] ∧
    (runFrom init5 [Act.connect "u", Act.close]).1.retryTimer = none ∧
    (runFrom init5 [Act.connect "u", Act.close]).1.socket = none ∧
    validTrace init5 [Act.connect "u", Act.close, Act.closeEvt 0 0, Act.timerFire 0] ∧
    Out.attemptOpen 1 "u"
      ∈ (runFrom init5 [Act.connect "u", Act.close, Act.closeEvt 0 0, Act.timerFire 0]).2 ∧
    (runFrom init5 [Act.connect "u", Act.close, Act.closeEvt 0 0, Act.timerFire 0]).1.socket
      = some 1 := by
  refine ⟨?_, ?_, ?_, ?_, ?_, ?_, ?_⟩ <;>
    simp [init5, validTrace, validAct, runFrom, step, connect, close, resetRetries,
      reopenSocket, handleClose, handleTimerFire, retryConnectionLogic, setUserClosed,
      setCloseDelivered, initState, dSock] <;> norm_num

/-- C3 fails on the code: calling `connect("b")` while the socket opened by
`connect("a")` is live does not close or discard the old socket — afterwards
two distinct live (opened, never closed, never discarded) transport handles
exist simultaneously. -/
theorem claim_C3_bug :
    validTrace init5 [Act.connect "a", Act.openEvt 0, Act.connect "b", Act.openEvt 1] ∧
    (liveSocks (runFrom init5
        [Act.connect "a", Act.openEvt 0, Act.connect "b", Act.openEvt 1]).1).length = 2 ∧
    ((runFrom init5 [Act.connect "a", Act.openEvt 0, Act.connect "b", Act.openEvt 1]).1.socks.filter
        (fun k => k.opened && !k.closeDelivered && !k.userClosed)).length = 2 := by
  refine ⟨?_, ?_, ?_⟩ <;>
    simp [init5, validTrace, validAct, runFrom, step, connect, resetRetries, reopenSocket,
      handleOpen, setOpened, initState, dSock, liveSocks, List.filter]

/-- C5 fails on the code: with the same random draw (`r = 0`), the failure
after a successful open schedules delay `0` (computed with retry count `0`),
while the first failure after a fresh `connect` schedules delay `2` (computed
with retry count `1`) — the post-success delay is not computed as the first
retry after a fresh connect would be. -/
theorem claim_C5_counterexample :
    validTrace init5 [Act.connect "u", Act.openEvt 0, Act.closeEvt 0 0] ∧
    validTrace init5 [Act.connect "u", Act.closeEvt 0 0] ∧
    (runFrom init5 [Act.connect "u", Act.openEvt 0]).1.currentRetry = 0 ∧
    timerDelays (runFrom init5 [Act.connect "u", Act.openEvt 0, Act.closeEvt 0 0]).2 = [0] ∧
    timerDelays (runFrom init5 [Act.connect "u", Act.closeEvt 0 0]).2 = [2] ∧
    (0 : ℚ) ≠ 2 := by
  refine ⟨?_, ?_, ?_, ?_, ?_, by norm_num⟩ <;>
    simp [init5, validTrace, validAct, runFrom, step, connect, resetRetries, reopenSocket,
      handleOpen, setOpened, handleClose, setCloseDelivered, retryConnectionLogic,
      computeWait, getRandomInt_zero, timerDelays, initState, dSock] <;>
    norm_num [min_def]

/-- C6 fails on the code in states with an orphaned timer: two stale `close`
events schedule two timeouts, the second `setTimeout` overwriting
`_retryTimer` so that the first timeout is no longer tracked; a subsequent
`connect("c")` clears only the tracked timeout, the orphaned one stays
pending, and when it fires the client opens a socket to the old uri `"a"`. -/
theorem claim_C6_counterexample :
    validTrace init5 [Act.connect "a", Act.connect "b", Act.closeEvt 0 0, Act.closeEvt 1 0,
      Act.connect "c", Act.timerFire 0] ∧
    (runFrom init5 [Act.connect "a", Act.connect "b", Act.closeEvt 0 0, Act.closeEvt 1 0,
      Act.connect "c"]).1.pendingTimers = [(0, "a")] ∧
    (runFrom init5 [Act.connect "a", Act.connect "b", Act.closeEvt 0 0, Act.closeEvt 1 0,
      Act.connect "c", Act.timerFire 0]).1.socket = some 3 ∧
    ((runFrom init5 [Act.connect "a", Act.connect "b", Act.closeEvt 0 0, Act.closeEvt 1 0,
      Act.connect "c", Act.timerFire 0]).1.socks.getD 3 dSock).uri = "a" := by
  refine ⟨?_, ?_, ?_, ?_⟩ <;>
    simp [init5, validTrace, validAct, runFrom, step, connect, resetRetries, reopenSocket,
      handleClose, setCloseDelivered, handleTimerFire, retryConnectionLogic,
      computeWait, getRandomInt_zero, initState, dSock] <;>
    norm_num

/-- C9 fails on the code for `maxRetries = 1` when the first attempt opens
before terminating: the `open` listener resets the counter to `0`, so the
first attempt termination after `connect` runs the retry logic with
`0 >= 1` false — the broken callback does not fire and a retry timer is
scheduled. -/
theorem claim_C9_counterexample :
    validTrace (initState 1 false true false)
      [Act.connect "u", Act.openEvt 0, Act.closeEvt 0 0] ∧
    countBroken (runFrom (initState 1 false true false)
      [Act.connect "u", Act.openEvt 0, Act.closeEvt 0 0]).2 = 0 ∧
    (runFrom (initState 1 false true false)
      [Act.connect "u", Act.openEvt 0, Act.closeEvt 0 0]).1.pendingTimers = [(0, "u")] := by
  refine ⟨?_, ?_, ?_⟩ <;>
    simp [validTrace, validAct, runFrom, step, connect, resetRetries, reopenSocket,
      handleOpen, setOpened, handleClose, setCloseDelivered, retryConnectionLogic,
      computeWait, getRandomInt_zero, countBroken, initState, dSock] <;>
    norm_num
/-- Variant of `List.getElem?_concat_length` for `List.get?`. -/
lemma get?_concat_len (l : List Sock) (x : Sock) : (l ++ [x]).get? l.length = some x := by
  simp [List.get?_eq_getElem?, List.getElem?_concat_length]

/-- Canonical failure streak after a `connect`: `k` repetitions of "the
current attempt's socket delivers its `close` event (with random draw
`r i`), then the scheduled retry timeout fires". Socket ids and timeout ids
both count up from `0` along the streak. -/
def streakActs (r : Nat → ℚ) : Nat → List Act
  | 0 => []
  | k + 1 => streakActs r k ++ [Act.closeEvt k (r k), Act.timerFire k]

/-- State reached after `connect u` followed by `k` full failure cycles:
attempt `k + 1` is in flight on socket `k`, no timer is pending, and the
retry counter holds `k + 1` (it is incremented at attempt start). `l` lists
the `k` exhausted sockets. -/
def streakMid (M : ℤ) (e b ms : Bool) (u : String) (k : Nat) (l : List Sock) : WsState :=
  { socket := some k
    socks := l ++ [⟨u, false, false, false⟩]
    pendingTimers := []
    retryTimer := none
    nextTimerId := k
    retryTimeoutBase := 2
    retryTimeoutMax := 30
    retryTimeoutIncrement := 2
    retryTimeoutJitter := 2
    currentRetry := (k : ℤ) + 1
    maxRetries := M
    hasEstablishedCb := e
    hasBrokenCb := b
    hasMessageCb := ms }

/-- One full failure cycle advances `streakMid k` to `streakMid (k+1)`,
is valid, and fires no broken callback (the retry threshold is not hit). -/
lemma streak_pair (M : ℤ) (e b ms : Bool) (u : String) (k : Nat) (l : List Sock)
    (hl : l.length = k) (rk : ℚ) (hr0 : 0 ≤ rk) (hr1 : rk < 1)
    (hk : (k : ℤ) + 1 < M) :
    validTrace (streakMid M e b ms u k l) [Act.closeEvt k rk, Act.timerFire k] ∧
    (runFrom (streakMid M e b ms u k l) [Act.closeEvt k rk, Act.timerFire k]).1
      = streakMid M e b ms u (k + 1) (l ++ [⟨u, false, true, false⟩]) ∧
    countBroken (runFrom (streakMid M e b ms u k l)
      [Act.closeEvt k rk, Act.timerFire k]).2 = 0 := by
  subst hl
  have hcond : ¬ ((l.length : ℤ) + 1 ≥ M) := by omega
  refine ⟨?_, ?_, ?_⟩ <;>
    simp [streakMid, validTrace, validAct, runFrom, step, handleClose, setCloseDelivered,
      handleTimerFire, retryConnectionLogic, reopenSocket, countBroken,
      getD_concat_length, set_concat_length, get?_concat_len, hcond, hr0, hr1,
      List.lookup, List.filter, dSock]

/-- After `connect u` and `k` full failure cycles (possible whenever
`k < maxRetries`), the state is `streakMid k`, the trace is valid, and no
broken callback has fired. -/
lemma streak_run (M : ℤ) (e b ms : Bool) (u : String) (r : Nat → ℚ)
    (hr : ∀ i, 0 ≤ r i ∧ r i < 1) :
    ∀ k : Nat, (k : ℤ) < M →
      ∃ l : List Sock, l.length = k ∧
        validTrace (initState M e b ms) (Act.connect u :: streakActs r k) ∧
        (runFrom (initState M e b ms) (Act.connect u :: streakActs r k)).1
          = streakMid M e b ms u k l ∧
        countBroken (runFrom (initState M e b ms) (Act.connect u :: streakActs r k)).2
          = 0 := by
  intro k
  induction k with
  | zero =>
    intro _
    refine ⟨[], rfl, ?_, ?_, ?_⟩ <;>
      simp [initState, streakMid, streakActs, validTrace, validAct, runFrom, step,
        connect, resetRetries, reopenSocket, countBroken]
  | succ k ih =>
    intro hk1
    have hk : (k : ℤ) < M := by omega
    obtain ⟨l, hl, hv, hs, hb0⟩ := ih hk
    have hpair := streak_pair M e b ms u k l hl (r k) (hr k).1 (hr k).2 (by omega)
    have htr : Act.connect u :: streakActs r (k + 1)
        = (Act.connect u :: streakActs r k) ++ [Act.closeEvt k (r k), Act.timerFire k] := by
      simp [streakActs]
    refine ⟨l ++ [⟨u, false, true, false⟩], by simp [hl], ?_, ?_, ?_⟩
    · rw [htr, validTrace_append]
      exact ⟨hv, by rw [hs]; exact hpair.1⟩
    · rw [htr, runFrom_append, hs]
      exact hpair.2.1
    · rw [htr, runFrom_append, countBroken_append, hb0, hs, hpair.2.2]

/-- Delivering a `close` event to the current attempt of `streakMid k` when
the counter has reached the threshold (`k + 1 ≥ maxRetries`) logs an error,
fires the broken callback exactly once (it is registered here), and
schedules no timer. -/
lemma streak_final (M : ℤ) (e ms : Bool) (u : String) (k : Nat) (l : List Sock)
    (hl : l.length = k) (rk : ℚ) (hr0 : 0 ≤ rk) (hr1 : rk < 1)
    (hk : (k : ℤ) + 1 ≥ M) :
    validTrace (streakMid M e true ms u k l) [Act.closeEvt k rk] ∧
    (runFrom (streakMid M e true ms u k l) [Act.closeEvt k rk]).2
      = [Out.logDebug, Out.logError, Out.broken] ∧
    (runFrom (streakMid M e true ms u k l) [Act.closeEvt k rk]).1.pendingTimers = [] ∧
    (runFrom (streakMid M e true ms u k l) [Act.closeEvt k rk]).1.retryTimer = none := by
  subst hl
  refine ⟨?_, ?_, ?_, ?_⟩ <;>
    simp [streakMid, validTrace, validAct, runFrom, step, handleClose, setCloseDelivered,
      retryConnectionLogic, getD_concat_length, set_concat_length, get?_concat_len,
      hk, hr0, hr1, dSock]

/-- C2 fails on the code as stated: with `maxRetries = 1` and the broken
callback registered, a run of one consecutive attempt termination — a
post-open drop, which the claim says is counted identically to an open
failure — reaches `maxRetries` without the broken callback firing; the code
instead schedules a retry, because the drop is delivered with the counter
already reset to `0` by the `open` listener. -/
theorem claim_C2_counterexample :
    validTrace (initState 1 true true true)
      [Act.connect "u", Act.openEvt 0, Act.closeEvt 0 0] ∧
    countBroken (runFrom (initState 1 true true true)
      [Act.connect "u", Act.openEvt 0, Act.closeEvt 0 0]).2 = 0 ∧
    (runFrom (initState 1 true true true)
      [Act.connect "u", Act.openEvt 0, Act.closeEvt 0 0]).1.pendingTimers = [(0, "u")] := by
  refine ⟨?_, ?_, ?_⟩ <;>
    simp [validTrace, validAct, runFrom, step, connect, resetRetries, reopenSocket,
      handleOpen, setOpened, handleClose, setCloseDelivered, retryConnectionLogic,
      computeWait, getRandomInt_zero, countBroken, initState, dSock]

/-- C2 corrected: for every canonical failure streak begun by a fresh
`connect` (each closed attempt followed by its scheduled retry), the broken
callback does not fire while fewer than `maxRetries` consecutive closures
occurred, and at the `maxRetries`-th consecutive closure it fires exactly
once with no further timer scheduled.  (A streak begun instead by a
post-open drop needs `maxRetries + 1` closures, because that first drop is
delivered with the counter still `0` — see the counterexample.) -/
theorem claim_C2_amended (m : Nat) (hm : 1 ≤ m) (e ms : Bool) (u : String)
    (r : Nat → ℚ) (hr : ∀ i, 0 ≤ r i ∧ r i < 1) :
    (∀ k, k < m →
      validTrace (initState (m : ℤ) e true ms) (Act.connect u :: streakActs r k) ∧
      countBroken
        (runFrom (initState (m : ℤ) e true ms) (Act.connect u :: streakActs r k)).2 = 0) ∧
    validTrace (initState (m : ℤ) e true ms)
      ((Act.connect u :: streakActs r (m - 1)) ++ [Act.closeEvt (m - 1) (r (m - 1))]) ∧
    countBroken (runFrom (initState (m : ℤ) e true ms)
      ((Act.connect u :: streakActs r (m - 1)) ++ [Act.closeEvt (m - 1) (r (m - 1))])).2
      = 1 ∧
    (runFrom (initState (m : ℤ) e true ms)
      ((Act.connect u :: streakActs r (m - 1))
        ++ [Act.closeEvt (m - 1) (r (m - 1))])).1.pendingTimers = [] ∧
    (runFrom (initState (m : ℤ) e true ms)
      ((Act.connect u :: streakActs r (m - 1))
        ++ [Act.closeEvt (m - 1) (r (m - 1))])).1.retryTimer = none := by
  obtain ⟨l, hl, hv, hs, hb0⟩ :=
    streak_run (m : ℤ) e true ms u r hr (m - 1) (by omega)
  have hfin := streak_final (m : ℤ) e ms u (m - 1) l hl (r (m - 1))
    (hr (m - 1)).1 (hr (m - 1)).2 (by omega)
  refine ⟨?_, ?_, ?_, ?_, ?_⟩
  · intro k hk
    obtain ⟨_, _, hv', _, hb'⟩ := streak_run (m : ℤ) e true ms u r hr k (by omega)
    exact ⟨hv', hb'⟩
  · rw [validTrace_append]
    exact ⟨hv, by rw [hs]; exact hfin.1⟩
  · rw [runFrom_append, countBroken_append, hb0, hs, hfin.2.1]
    simp [countBroken]
  · rw [runFrom_append, hs]
    exact hfin.2.2.1
  · rw [runFrom_append, hs]
    exact hfin.2.2.2

/-- Witness for the corrected C2 at `maxRetries = 2` with all draws `0`. -/
theorem claim_C2_amended_witness :
    (1 ≤ 2 ∧ ∀ i : Nat, 0 ≤ (0 : ℚ) ∧ (0 : ℚ) < 1) ∧
    ((∀ k, k < 2 →
      validTrace (initState ((2 : Nat) : ℤ) false true false)
        (Act.connect "u" :: streakActs (fun _ => 0) k) ∧
      countBroken (runFrom (initState ((2 : Nat) : ℤ) false true false)
        (Act.connect "u" :: streakActs (fun _ => 0) k)).2 = 0) ∧
    validTrace (initState ((2 : Nat) : ℤ) false true false)
      ((Act.connect "u" :: streakActs (fun _ => 0) (2 - 1)) ++ [Act.closeEvt (2 - 1) 0]) ∧
    countBroken (runFrom (initState ((2 : Nat) : ℤ) false true false)
      ((Act.connect "u" :: streakActs (fun _ => 0) (2 - 1)) ++ [Act.closeEvt (2 - 1) 0])).2
      = 1 ∧
    (runFrom (initState ((2 : Nat) : ℤ) false true false)
      ((Act.connect "u" :: streakActs (fun _ => 0) (2 - 1))
        ++ [Act.closeEvt (2 - 1) 0])).1.pendingTimers = [] ∧
    (runFrom (initState ((2 : Nat) : ℤ) false true false)
      ((Act.connect "u" :: streakActs (fun _ => 0) (2 - 1))
        ++ [Act.closeEvt (2 - 1) 0])).1.retryTimer = none) :=
  ⟨⟨by norm_num, fun _ => ⟨le_refl 0, by norm_num⟩⟩,
    claim_C2_amended 2 (by norm_num) false false "u" (fun _ => 0)
      (fun _ => ⟨le_refl 0, by norm_num⟩)⟩

/-- With default parameters and `currentRetry = 0` the computed wait is the
jitter draw plus the base delay `2` (no clamping occurs). -/
lemma computeWait_cnt0 (s : WsState) (r : ℚ)
    (hb : s.retryTimeoutBase = 2) (hm : s.retryTimeoutMax = 30)
    (hi : s.retryTimeoutIncrement = 2) (hj : s.retryTimeoutJitter = 2)
    (h0 : s.currentRetry = 0) (hr0 : 0 ≤ r) (hr1 : r < 1) :
    computeWait s r = (getRandomInt (-2) 2 r : ℚ) + 2 := by
  obtain ⟨hlo, hhi⟩ := getRandomInt_jitter_bounds r hr0 hr1
  have hhiQ : (getRandomInt (-2) 2 r : ℚ) < 2 := by exact_mod_cast hhi
  rw [computeWait, hb, hm, hi, hj, h0]
  rw [min_eq_left (by push_cast; linarith)]
  push_cast
  ring

/-- With default parameters and `currentRetry = 1` the computed wait is the
jitter draw plus `4` (no clamping occurs). -/
lemma computeWait_cnt1 (s : WsState) (r : ℚ)
    (hb : s.retryTimeoutBase = 2) (hm : s.retryTimeoutMax = 30)
    (hi : s.retryTimeoutIncrement = 2) (hj : s.retryTimeoutJitter = 2)
    (h1 : s.currentRetry = 1) (hr0 : 0 ≤ r) (hr1 : r < 1) :
    computeWait s r = (getRandomInt (-2) 2 r : ℚ) + 4 := by
  obtain ⟨hlo, hhi⟩ := getRandomInt_jitter_bounds r hr0 hr1
  have hhiQ : (getRandomInt (-2) 2 r : ℚ) < 2 := by exact_mod_cast hhi
  rw [computeWait, hb, hm, hi, hj, h1]
  rw [min_eq_left (by push_cast; linarith)]
  push_cast
  ring

/-- State after the in-flight attempt of `streakMid k` opens: the `open`
listener resets the retry counter to `0` (and the backoff defaults, and the
absent timer); the socket stays referenced. -/
def streakOpen (M : ℤ) (e b ms : Bool) (u : String) (k : Nat) (l : List Sock) : WsState :=
  { socket := some k
    socks := l ++ [⟨u, true, false, false⟩]
    pendingTimers := []
    retryTimer := none
    nextTimerId := k
    retryTimeoutBase := 2
    retryTimeoutMax := 30
    retryTimeoutIncrement := 2
    retryTimeoutJitter := 2
    currentRetry := 0
    maxRetries := M
    hasEstablishedCb := e
    hasBrokenCb := b
    hasMessageCb := ms }

/-- Delivering `open` on the current attempt of `streakMid k` is valid and
yields `streakOpen k`. -/
lemma streak_open (M : ℤ) (e b ms : Bool) (u : String) (k : Nat) (l : List Sock)
    (hl : l.length = k) :
    validAct (streakMid M e b ms u k l) (Act.openEvt k) ∧
    (step (streakMid M e b ms u k l) (Act.openEvt k)).1 = streakOpen M e b ms u k l := by
  subst hl
  constructor <;>
    simp [streakMid, streakOpen, validAct, step, handleOpen, setOpened, resetRetries,
      getD_concat_length, set_concat_length, get?_concat_len, dSock]

/-- A drop right after a successful open runs the retry logic with counter
`0`, so (when `maxRetries ≥ 1`) it schedules a retry whose delay is computed
with retry count `0`: jitter plus the base `2`. -/
lemma streakOpen_close (M : ℤ) (e b ms : Bool) (u : String) (k : Nat) (l : List Sock)
    (hl : l.length = k) (r' : ℚ) (hr0 : 0 ≤ r') (hr1 : r' < 1) (hM : 1 ≤ M) :
    validAct (streakOpen M e b ms u k l) (Act.closeEvt k r') ∧
    timerDelays (step (streakOpen M e b ms u k l) (Act.closeEvt k r')).2
      = [(getRandomInt (-2) 2 r' : ℚ) + 2] := by
  subst hl
  have hcond : ¬ ((0 : ℤ) ≥ M) := by omega
  constructor
  · simp [streakOpen, validAct, get?_concat_len, hr0, hr1]
  · simp [streakOpen, step, handleClose, setCloseDelivered, retryConnectionLogic, hcond,
      getD_concat_length, set_concat_length, timerDelays, dSock]
    exact computeWait_cnt0 _ r' rfl rfl rfl rfl rfl hr0 hr1

/-- After `connect u` alone the state is `streakMid 0 []`. -/
lemma connect_state (M : ℤ) (e b ms : Bool) (u : String) :
    (runFrom (initState M e b ms) [Act.connect u]).1 = streakMid M e b ms u 0 [] := by
  simp [runFrom, step, connect, resetRetries, reopenSocket, initState, streakMid]

/-- The first failure of a fresh `connect` runs the retry logic with counter
`1`, so (when `maxRetries ≥ 2`) the scheduled delay is computed with retry
count `1`: jitter plus `4`. -/
lemma first_failure_delay (M : ℤ) (e b ms : Bool) (u : String) (r' : ℚ)
    (hr0 : 0 ≤ r') (hr1 : r' < 1) (hM : 1 < M) :
    validAct (streakMid M e b ms u 0 []) (Act.closeEvt 0 r') ∧
    timerDelays (step (streakMid M e b ms u 0 []) (Act.closeEvt 0 r')).2
      = [(getRandomInt (-2) 2 r' : ℚ) + 4] := by
  have hcond : ¬ ((1 : ℤ) ≥ M) := by omega
  constructor
  · simp [streakMid, validAct, hr0, hr1, List.get?]
  · simp [streakMid, step, handleClose, setCloseDelivered, retryConnectionLogic, hcond,
      timerDelays, dSock, List.getD, List.get?]
    refine computeWait_cnt1 _ r' ?_ ?_ ?_ ?_ ?_ hr0 hr1 <;> norm_num

/-- C5 corrected: after `N < maxRetries` failed attempts and one successful
open, the retry counter is reset to `0` (this half of the claim holds); but
the next failure then schedules a delay computed with retry count `0`
(jitter + 2 seconds), one increment LOWER than the delay of the first retry
after a fresh `connect`, which is computed with retry count `1`
(jitter + 4 seconds) because `_reopenSocket` increments the counter at
attempt start. -/
theorem claim_C5_amended (m N : Nat) (e ms : Bool) (u : String) (r : Nat → ℚ) (r' : ℚ)
    (hm : 2 ≤ m) (hN : N < m) (hr : ∀ i, 0 ≤ r i ∧ r i < 1)
    (hr'0 : 0 ≤ r') (hr'1 : r' < 1) :
    validTrace (initState (m : ℤ) e true ms)
      ((Act.connect u :: streakActs r N) ++ [Act.openEvt N]) ∧
    (runFrom (initState (m : ℤ) e true ms)
      ((Act.connect u :: streakActs r N) ++ [Act.openEvt N])).1.currentRetry = 0 ∧
    validAct (runFrom (initState (m : ℤ) e true ms)
      ((Act.connect u :: streakActs r N) ++ [Act.openEvt N])).1 (Act.closeEvt N r') ∧
    timerDelays (step (runFrom (initState (m : ℤ) e true ms)
      ((Act.connect u :: streakActs r N) ++ [Act.openEvt N])).1 (Act.closeEvt N r')).2
      = [(getRandomInt (-2) 2 r' : ℚ) + 2] ∧
    validAct (runFrom (initState (m : ℤ) e true ms) [Act.connect u]).1
      (Act.closeEvt 0 r') ∧
    timerDelays (step (runFrom (initState (m : ℤ) e true ms) [Act.connect u]).1
      (Act.closeEvt 0 r')).2
      = [(getRandomInt (-2) 2 r' : ℚ) + 4] := by
  obtain ⟨l, hl, hv, hs, _⟩ := streak_run (m : ℤ) e true ms u r hr N (by omega)
  have hopen := streak_open (m : ℤ) e true ms u N l hl
  have hpost := streakOpen_close (m : ℤ) e true ms u N l hl r' hr'0 hr'1 (by omega)
  have hfirst := first_failure_delay (m : ℤ) e true ms u r' hr'0 hr'1 (by omega)
  have hrunO : (runFrom (initState (m : ℤ) e true ms)
      ((Act.connect u :: streakActs r N) ++ [Act.openEvt N])).1
      = streakOpen (m : ℤ) e true ms u N l := by
    rw [runFrom_append, hs]
    simpa [runFrom] using hopen.2
  refine ⟨?_, ?_, ?_, ?_, ?_, ?_⟩
  · rw [validTrace_append]
    refine ⟨hv, ?_⟩
    rw [hs]
    simpa [validTrace] using hopen.1
  · rw [hrunO]; rfl
  · rw [hrunO]; exact hpost.1
  · rw [hrunO]; exact hpost.2
  · rw [connect_state]; exact hfirst.1
  · rw [connect_state]; exact hfirst.2

/-- Witness for the corrected C5 at `maxRetries = 2`, `N = 0`, draws `0`. -/
theorem claim_C5_amended_witness :
    (2 ≤ 2 ∧ 0 < 2 ∧ (0 : ℚ) ≤ 0 ∧ (0 : ℚ) < 1) ∧
    (validTrace (initState ((2 : Nat) : ℤ) false true false)
      ((Act.connect "u" :: streakActs (fun _ => 0) 0) ++ [Act.openEvt 0]) ∧
    (runFrom (initState ((2 : Nat) : ℤ) false true false)
      ((Act.connect "u" :: streakActs (fun _ => 0) 0) ++ [Act.openEvt 0])).1.currentRetry
      = 0 ∧
    validAct (runFrom (initState ((2 : Nat) : ℤ) false true false)
      ((Act.connect "u" :: streakActs (fun _ => 0) 0) ++ [Act.openEvt 0])).1
      (Act.closeEvt 0 0) ∧
    timerDelays (step (runFrom (initState ((2 : Nat) : ℤ) false true false)
      ((Act.connect "u" :: streakActs (fun _ => 0) 0) ++ [Act.openEvt 0])).1
      (Act.closeEvt 0 0)).2
      = [(getRandomInt (-2) 2 0 : ℚ) + 2] ∧
    validAct (runFrom (initState ((2 : Nat) : ℤ) false true false) [Act.connect "u"]).1
      (Act.closeEvt 0 0) ∧
    timerDelays (step (runFrom (initState ((2 : Nat) : ℤ) false true false)
      [Act.connect "u"]).1 (Act.closeEvt 0 0)).2
      = [(getRandomInt (-2) 2 0 : ℚ) + 4]) :=
  ⟨⟨le_refl 2, by norm_num, le_refl 0, by norm_num⟩,
    claim_C5_amended 2 0 false false "u" (fun _ => 0) 0 (le_refl 2) (by norm_num)
      (fun _ => ⟨le_refl 0, by norm_num⟩) (le_refl 0) (by norm_num)⟩

/-- C6 corrected: `connect(uri)` always resets the retry counter to `0` and
the backoff parameters to their defaults, clears the timeout tracked in
`_retryTimer` (and only that one — an orphaned timeout survives, see the
counterexample), stores `uri` in the new socket's listener closures for
future automatic retries, and starts a fresh transport open attempt against
`uri` (bringing the counter to `1` at attempt start). -/
theorem claim_C6_amended (s : WsState) (uri : String) :
    connect uri s = reopenSocket uri (resetRetries s) ∧
    (resetRetries s).currentRetry = 0 ∧
    (resetRetries s).retryTimer = none ∧
    (resetRetries s).retryTimeoutBase = 2 ∧
    (resetRetries s).retryTimeoutMax = 30 ∧
    (resetRetries s).retryTimeoutIncrement = 2 ∧
    (resetRetries s).retryTimeoutJitter = 2 ∧
    (s.retryTimer = none → (resetRetries s).pendingTimers = s.pendingTimers) ∧
    (∀ tid, s.retryTimer = some tid →
      (resetRetries s).pendingTimers = s.pendingTimers.filter (fun p => p.1 != tid)) ∧
    (connect uri s).1.socket = some s.socks.length ∧
    (connect uri s).1.socks = s.socks ++ [⟨uri, false, false, false⟩] ∧
    (connect uri s).1.currentRetry = 1 := by
  refine ⟨rfl, rfl, rfl, rfl, rfl, rfl, rfl, ?_, ?_, rfl, rfl, ?_⟩
  · intro h; simp [resetRetries, h]
  · intro tid h; simp [resetRetries, h]
  · simp [connect, reopenSocket, resetRetries]

/-- Witness for the corrected C6 at a state with a tracked pending timer. -/
theorem claim_C6_amended_witness :
    connect "c" { initState 5 false false false with
        retryTimer := some 1, pendingTimers := [(0, "a"), (1, "b")] }
      = reopenSocket "c" (resetRetries { initState 5 false false false with
          retryTimer := some 1, pendingTimers := [(0, "a"), (1, "b")] }) ∧
    (resetRetries { initState 5 false false false with
        retryTimer := some 1, pendingTimers := [(0, "a"), (1, "b")] }).currentRetry = 0 ∧
    (resetRetries { initState 5 false false false with
        retryTimer := some 1, pendingTimers := [(0, "a"), (1, "b")] }).retryTimer = none ∧
    (resetRetries { initState 5 false false false with
        retryTimer := some 1, pendingTimers := [(0, "a"), (1, "b")] }).retryTimeoutBase = 2 ∧
    (resetRetries { initState 5 false false false with
        retryTimer := some 1, pendingTimers := [(0, "a"), (1, "b")] }).retryTimeoutMax = 30 ∧
    (resetRetries { initState 5 false false false with
        retryTimer := some 1,
        pendingTimers := [(0, "a"), (1, "b")] }).retryTimeoutIncrement = 2 ∧
    (resetRetries { initState 5 false false false with
        retryTimer := some 1, pendingTimers := [(0, "a"), (1, "b")] }).retryTimeoutJitter = 2 ∧
    (({ initState 5 false false false with
        retryTimer := some 1, pendingTimers := [(0, "a"), (1, "b")] } : WsState).retryTimer
          = none →
      (resetRetries { initState 5 false false false with
          retryTimer := some 1, pendingTimers := [(0, "a"), (1, "b")] }).pendingTimers
        = ({ initState 5 false false false with
            retryTimer := some 1, pendingTimers := [(0, "a"), (1, "b")] } : WsState).pendingTimers) ∧
    (∀ tid, ({ initState 5 false false false with
        retryTimer := some 1, pendingTimers := [(0, "a"), (1, "b")] } : WsState).retryTimer
          = some tid →
      (resetRetries { initState 5 false false false with
          retryTimer := some 1, pendingTimers := [(0, "a"), (1, "b")] }).pendingTimers
        = ({ initState 5 false false false with
            retryTimer := some 1, pendingTimers := [(0, "a"), (1, "b")] } : WsState).pendingTimers.filter
            (fun p => p.1 != tid)) ∧
    (connect "c" { initState 5 false false false with
        retryTimer := some 1, pendingTimers := [(0, "a"), (1, "b")] }).1.socket
      = some ({ initState 5 false false false with
          retryTimer := some 1, pendingTimers := [(0, "a"), (1, "b")] } : WsState).socks.length ∧
    (connect "c" { initState 5 false false false with
        retryTimer := some 1, pendingTimers := [(0, "a"), (1, "b")] }).1.socks
      = ({ initState 5 false false false with
          retryTimer := some 1, pendingTimers := [(0, "a"), (1, "b")] } : WsState).socks
        ++ [⟨"c", false, false, false⟩] ∧
    (connect "c" { initState 5 false false false with
        retryTimer := some 1, pendingTimers := [(0, "a"), (1, "b")] }).1.currentRetry = 1 :=
  claim_C6_amended
    { initState 5 false false false with
        retryTimer := some 1, pendingTimers := [(0, "a"), (1, "b")] } "c"

/-- A single dispatch step from a state whose `maxRetries` is non-positive,
whose counter is non-negative, and which has no pending timeout, never
schedules a timeout and preserves all three facts. -/
lemma step_no_timer (s : WsState) (a : Act) (hM : s.maxRetries ≤ 0)
    (hc : 0 ≤ s.currentRetry) (hp : s.pendingTimers = []) :
    (step s a).1.maxRetries = s.maxRetries ∧ 0 ≤ (step s a).1.currentRetry ∧
    (step s a).1.pendingTimers = [] ∧ timerDelays (step s a).2 = [] := by
  have hge : s.currentRetry ≥ s.maxRetries := le_trans hM hc
  cases a with
  | connect uri =>
    cases hrt : s.retryTimer <;>
      simp [step, connect, resetRetries, reopenSocket, hrt, hp, timerDelays]
  | close =>
    cases hso : s.socket <;> cases hrt : s.retryTimer <;>
      simp [step, close, resetRetries, setUserClosed, hso, hrt, hp, hc, timerDelays]
  | openEvt sid =>
    cases hrt : s.retryTimer <;>
      simp [step, handleOpen, setOpened, resetRetries, hrt, hp, timerDelays,
        apply_ite timerDelays]
  | closeEvt sid r =>
    simp [step, handleClose, setCloseDelivered, retryConnectionLogic, if_pos hge, hp, hc,
      timerDelays, apply_ite timerDelays]
  | msgEvt sid p =>
    simp [step, handleMessage, hp, hc, timerDelays, apply_ite timerDelays]
  | errEvt sid =>
    simp [step, handleError, hp, hc, timerDelays]
  | timerFire tid =>
    simp [step, handleTimerFire, reopenSocket, hp, timerDelays]
    omega

/-- From any state with non-positive `maxRetries`, non-negative counter and
no pending timeout, no run of actions ever schedules a timeout. -/
lemma run_no_timer : ∀ (acts : List Act) (s : WsState), s.maxRetries ≤ 0 →
    0 ≤ s.currentRetry → s.pendingTimers = [] →
    (runFrom s acts).1.pendingTimers = [] ∧ timerDelays (runFrom s acts).2 = [] := by
  intro acts
  induction acts with
  | nil =>
    intro s _ _ h3
    exact ⟨h3, rfl⟩
  | cons a as ih =>
    intro s h1 h2 h3
    obtain ⟨hm', hc', hp', ht'⟩ := step_no_timer s a h1 h2 h3
    obtain ⟨ih1, ih2⟩ := ih (step s a).1 (hm' ▸ h1) hc' hp'
    refine ⟨?_, ?_⟩
    · simpa [runFrom] using ih1
    · simp [runFrom, timerDelays_append, ht', ih2]

/-- C9 corrected: the constructor stores any integer `maxRetries` without
validation; for `maxRetries ≤ 1` the first closed event after `connect`
with no intervening open fires the broken callback (when registered, and
only then) and schedules no timer; and for `maxRetries ≤ 0` no timer is
ever scheduled in any execution.  (For `maxRetries = 1` a drop after a
successful open does schedule a retry — see the counterexample.) -/
theorem claim_C9_amended (M : ℤ) (e b ms : Bool) (u : String) (r : ℚ)
    (hM : M ≤ 1) (hr0 : 0 ≤ r) (hr1 : r < 1) :
    (initState M e b ms).maxRetries = M ∧
    validTrace (initState M e b ms) [Act.connect u, Act.closeEvt 0 r] ∧
    countBroken (runFrom (initState M e b ms) [Act.connect u, Act.closeEvt 0 r]).2
      = (if b then 1 else 0) ∧
    (runFrom (initState M e b ms) [Act.connect u, Act.closeEvt 0 r]).1.pendingTimers = [] ∧
    (runFrom (initState M e b ms) [Act.connect u, Act.closeEvt 0 r]).1.retryTimer = none ∧
    (M ≤ 0 → ∀ acts : List Act,
      (runFrom (initState M e b ms) acts).1.pendingTimers = [] ∧
      timerDelays (runFrom (initState M e b ms) acts).2 = []) := by
  have hge : ((1 : ℤ) ≥ M) := by omega
  refine ⟨rfl, ?_, ?_, ?_, ?_, ?_⟩
  · simp [validTrace, validAct, runFrom, step, connect, resetRetries, reopenSocket,
      initState, hr0, hr1, List.get?]
  · cases b <;>
      simp [runFrom, step, connect, resetRetries, reopenSocket, handleClose,
        setCloseDelivered, retryConnectionLogic, initState, hge, countBroken,
        List.getD, List.get?, dSock]
  · simp [runFrom, step, connect, resetRetries, reopenSocket, handleClose,
      setCloseDelivered, retryConnectionLogic, initState, hge, List.getD, List.get?, dSock]
  · simp [runFrom, step, connect, resetRetries, reopenSocket, handleClose,
      setCloseDelivered, retryConnectionLogic, initState, hge, List.getD, List.get?, dSock]
  · intro hM0 acts
    exact run_no_timer acts (initState M e b ms) hM0 (le_refl 0) rfl

/-- Witness for the corrected C9 at `maxRetries = 0` with the broken
callback registered and draw `0`. -/
theorem claim_C9_amended_witness :
    ((0 : ℤ) ≤ 1 ∧ (0 : ℚ) ≤ 0 ∧ (0 : ℚ) < 1) ∧
    ((initState 0 false true false).maxRetries = 0 ∧
    validTrace (initState 0 false true false) [Act.connect "u", Act.closeEvt 0 0] ∧
    countBroken (runFrom (initState 0 false true false)
      [Act.connect "u", Act.closeEvt 0 0]).2 = (if true then 1 else 0) ∧
    (runFrom (initState 0 false true false)
      [Act.connect "u", Act.closeEvt 0 0]).1.pendingTimers = [] ∧
    (runFrom (initState 0 false true false)
      [Act.connect "u", Act.closeEvt 0 0]).1.retryTimer = none ∧
    ((0 : ℤ) ≤ 0 → ∀ acts : List Act,
      (runFrom (initState 0 false true false) acts).1.pendingTimers = [] ∧
      timerDelays (runFrom (initState 0 false true false) acts).2 = [])) :=
  ⟨⟨by norm_num, le_refl 0, by norm_num⟩,
    claim_C9_amended 0 false true false "u" 0 (by norm_num) (le_refl 0) (by norm_num)⟩

end QuickWs
